import Mathlib

/-!
Verification development for the docker-rbd-plugin repository.

The Go sources are shallowly embedded: pure helpers become Lean functions,
stateful operations become explicit state-passing functions that also return
a trace of the external (kernel / cluster) actions they perform, and fallible
operations return `Except Err _`.  External commands (`rbd nbd map`,
`rbd snap create`, `fsfreeze`) are modelled by oracle fields in the state
that hold the result the command would produce; their documented effect on
the cluster state (e.g. a successful `rbd nbd map` making the mapping appear
in the `rbd nbd list` output) is applied to the state.

Time is modelled as `Int` nanoseconds; a parsed RFC3339 timestamp is an
`Int`, with `Option Int` standing for the result of `time.Parse` (`none`
models a parse error).
-/

namespace RbdPlugin

/-- Error kinds of the rbd package.  `mountedElsewhere` corresponds to a Go
error wrapping `ErrMountedElsewhere` (its message is carried for fidelity);
`notMapped` is `ErrNotMapped`; `parentNotFound` is the
"parent mount not found" error of `getMountInfoForDevFromFile`. -/
inductive Err where
  | mountedElsewhere (msg : String)
  | notMapped
  | deviceBusy
  | exclusiveLockNotEnabled
  | exclusiveLockTaken
  | parentNotFound
  | parseError (msg : String)
  | cmdError (msg : String)
deriving DecidableEq, Repr

/-- The fields of a parsed `/proc/<pid>/mountinfo` record that the safety
logic reads (`parseMountinfoLine` in rbd/utils.go): mount id, parent id,
mount point, source device, and the `shared:N` / `master:N` propagation tags
(0 when the tag is absent). -/
structure MountInfo where
  id : Nat
  parentId : Nat
  mountPoint : String
  source : String
  shared : Nat
  master : Nat
deriving DecidableEq, Repr

/-- A mount of the device together with its parent mount, as produced by
`getMountInfoForDevFromFile` (the Go code stores the parent in the
`Parent` pointer field). -/
structure ResolvedMount where
  info : MountInfo
  parent : MountInfo
deriving DecidableEq, Repr

/-- `getMountInfoForDevFromFile` (rbd/utils.go): select the entries whose
source is `dev` (in file order) and resolve each one's parent among the
remaining entries (the Go code puts non-matching entries in a map keyed by
id, so a later duplicate id overwrites an earlier one — hence the
`reverse.find?`).  A missing parent is the "parent mount not found" error. -/
def getMountInfoForDev (entries : List MountInfo) (dev : String) :
    Except Err (List ResolvedMount) :=
  (entries.filter (fun m => m.source == dev)).mapM (fun m =>
    match (entries.filter (fun e => !(e.source == dev))).reverse.find?
        (fun e => e.id == m.parentId) with
    | some p => Except.ok ⟨m, p⟩
    | none => Except.error Err.parentNotFound)

/-- One directory of `/proc` as the scan sees it: whether it is a directory,
its name (a pid when numeric), the result of reading `ns/mnt` (`none`
models a readlink failure, e.g. the process ended), and the parsed
`mountinfo` records (`none` models an unreadable file). -/
structure ProcDir where
  isDir : Bool
  dirName : String
  mntNs : Option String
  mountinfo : Option (List MountInfo)
deriving DecidableEq, Repr

/-- The world visible to `isMountedElsewhere`: our own namespace id, our own
mountinfo records, and the `/proc` listing. -/
structure ScanWorld where
  selfNs : String
  selfMountinfo : List MountInfo
  procs : List ProcDir
deriving DecidableEq, Repr

/-- The tolerance test of `isMountedElsewhere` (rbd/utils.go lines 351-361)
for a device mount `m` found in a foreign namespace: tolerated only when a
local mount exists and `m`'s PARENT mount carries a nonzero `shared` id equal
to the local mount's parent's `shared` id, or a nonzero `master` id equal to
the local mount's parent's `shared` id. -/
def foreignTolerated (myMount : Option ResolvedMount) (m : ResolvedMount) : Bool :=
  match myMount with
  | none => false
  | some my =>
      ((m.parent.shared != 0) && (m.parent.shared == my.parent.shared)) ||
      ((m.parent.master != 0) && (m.parent.master == my.parent.shared))

/-- Foreign `/proc` accesses performed during the scan, for stating that the
local check concludes before any other process is examined. -/
inductive ScanAction where
  | readNs (p : String)
  | readMountinfo (p : String)
deriving DecidableEq, Repr

/-- The `strconv.Atoi(procDir.Name())` check: a `/proc` entry is a process
exactly when its name is a (nonempty) digit string. -/
def isNumericName (s : String) : Bool :=
  !s.data.isEmpty && s.data.all Char.isDigit

/-- The foreign-namespace loop of `isMountedElsewhere`: walk `/proc`, skip
non-directories and non-numeric names, skip namespaces already seen, skip
processes whose `ns/mnt` or `mountinfo` cannot be read or parsed (the
process may have ended), and fail with `ErrMountedElsewhere` at the first
device mount that is not tolerated.  A namespace is recorded as seen only
after it has been scanned without a conflict. -/
def scanProcs (dev : String) (myMount : Option ResolvedMount) :
    List String → List ProcDir → Except Err Unit × List ScanAction
  | _, [] => (Except.ok (), [])
  | seen, p :: rest =>
    if !p.isDir || !(isNumericName p.dirName) then
      scanProcs dev myMount seen rest
    else
      match p.mntNs with
      | none =>
        let r := scanProcs dev myMount seen rest
        (r.1, ScanAction.readNs p.dirName :: r.2)
      | some ns =>
        if seen.contains ns then
          let r := scanProcs dev myMount seen rest
          (r.1, ScanAction.readNs p.dirName :: r.2)
        else
          match p.mountinfo with
          | none =>
            let r := scanProcs dev myMount seen rest
            (r.1, ScanAction.readNs p.dirName :: ScanAction.readMountinfo p.dirName :: r.2)
          | some entries =>
            match getMountInfoForDev entries dev with
            | Except.error _ =>
              let r := scanProcs dev myMount seen rest
              (r.1, ScanAction.readNs p.dirName :: ScanAction.readMountinfo p.dirName :: r.2)
            | Except.ok pidMounts =>
              match pidMounts.find? (fun m => !(foreignTolerated myMount m)) with
              | some m =>
                (Except.error (Err.mountedElsewhere
                    (dev ++ " is mounted at " ++ m.info.mountPoint)),
                  [ScanAction.readNs p.dirName, ScanAction.readMountinfo p.dirName])
              | none =>
                let r := scanProcs dev myMount (ns :: seen) rest
                (r.1, ScanAction.readNs p.dirName :: ScanAction.readMountinfo p.dirName :: r.2)

/-- `isMountedElsewhere(device, mountpoint)` (rbd/utils.go lines 300-367):
read our own mountinfo; any local mount of the device at a path other than
`mountpoint` is an immediate `ErrMountedElsewhere`; otherwise remember the
first local mount (if any) and scan every other process's namespace. -/
def isMountedElsewhere (w : ScanWorld) (dev mountpoint : String) :
    Except Err Unit × List ScanAction :=
  match getMountInfoForDev w.selfMountinfo dev with
  | Except.error e => (Except.error e, [])
  | Except.ok myMounts =>
    match myMounts.find? (fun m => !(m.info.mountPoint == mountpoint)) with
    | some m =>
      (Except.error (Err.mountedElsewhere
          (dev ++ " is mounted at " ++ m.info.mountPoint)), [])
    | none =>
      scanProcs dev myMounts.head? [w.selfNs] w.procs

/-- The foreign device mounts that the scan examines, collected with the same
namespace-deduplication and skip rules as `scanProcs` but without stopping
at a conflict: used to state what "every foreign match" means. -/
def scannedForeignMounts (dev : String) :
    List String → List ProcDir → List ResolvedMount
  | _, [] => []
  | seen, p :: rest =>
    if !p.isDir || !(isNumericName p.dirName) then
      scannedForeignMounts dev seen rest
    else
      match p.mntNs with
      | none => scannedForeignMounts dev seen rest
      | some ns =>
        if seen.contains ns then
          scannedForeignMounts dev seen rest
        else
          match p.mountinfo with
          | none => scannedForeignMounts dev seen rest
          | some entries =>
            match getMountInfoForDev entries dev with
            | Except.error _ => scannedForeignMounts dev seen rest
            | Except.ok pidMounts =>
              pidMounts ++ scannedForeignMounts dev (ns :: seen) rest

/-! ### Mappings and the Dev state machine (rbd/dev.go, rbd/rbd.go) -/

/-- One row of `rbd nbd list` (the `mappedNBD` struct): pool, image name,
snapshot name (`"-"` for a plain image mapping) and the local block device. -/
structure MappedNBD where
  pool : String
  name : String
  snapshot : String
  device : String
deriving DecidableEq, Repr

/-- Identity of a `Dev`: an `Image` (pool, name) or a `Snapshot`
(pool, image name, snapshot name). -/
inductive DevId where
  | image (pool name : String)
  | snap (pool imageName snapName : String)
deriving DecidableEq, Repr

/-- The match test of `device` (rbd/dev.go lines 175-186) against one
`rbd nbd list` row, switching on whether the Dev is an Image or a Snapshot. -/
def mappingMatches (d : DevId) (m : MappedNBD) : Bool :=
  match d with
  | DevId.image pool name =>
      (m.snapshot == "-") && (m.name == name) && (m.pool == pool)
  | DevId.snap pool imageName snapName =>
      (m.snapshot == snapName) && (m.name == imageName) && (m.pool == pool)

/-- `device` scans the live mapping list in order and returns the first
matching row's device, or `""` when there is none. -/
def findDevice (maps : List MappedNBD) (d : DevId) : String :=
  match maps.find? (mappingMatches d) with
  | some m => m.device
  | none => ""

/-- External actions the Dev state machine performs (kernel calls and
cluster commands), recorded as a trace. -/
inductive Action where
  | scanNs
  | mountSys (blk mountPoint fs : String) (flags : Nat) (data : String)
  | unmountSys (mountPoint : String)
  | mapCmd (d : DevId)
  | unmapCmd (blk : String)
  | freeze (mountPoint : String)
  | unfreeze (mountPoint : String)
  | snapCreate (name : String)
deriving DecidableEq, Repr

instance {ε α : Type} [DecidableEq ε] [DecidableEq α] : DecidableEq (Except ε α) := fun a b =>
  match a, b with
  | Except.ok x, Except.ok y =>
    if h : x = y then isTrue (by rw [h]) else isFalse (by intro hc; cases hc; exact h rfl)
  | Except.error x, Except.error y =>
    if h : x = y then isTrue (by rw [h]) else isFalse (by intro hc; cases hc; exact h rfl)
  | Except.ok _, Except.error _ => isFalse (by intro hc; cases hc)
  | Except.error _, Except.ok _ => isFalse (by intro hc; cases hc)

/-- The state the Dev operations observe and act on.  `nbdList` is the
result `rbd nbd list` would produce (`Except` to keep the command's failure
path); `scan` is the mount-table world.  The remaining fields are oracles
for external commands: `mapCmdResult` is what `rbd nbd map` would return,
`freezeResult` what `fsfreeze --freeze` would return, `snapCreateResult`
what `rbd snap create` would return.  `frozen` tracks which mountpoints are
currently frozen. -/
structure SysState where
  nbdList : Except Err (List MappedNBD)
  scan : ScanWorld
  mapCmdResult : Except Err String
  freezeResult : Except Err Unit
  snapCreateResult : Except Err Unit
  frozen : List String
  fsProbe : List (String × String)
deriving DecidableEq, Repr

/-- `device(d)` (rbd/dev.go): query the live mapping list and return the
first matching device, `""` if unmapped. -/
def device (d : DevId) (s : SysState) : Except Err String :=
  match s.nbdList with
  | Except.error e => Except.error e
  | Except.ok maps => Except.ok (findDevice maps d)

/-- `mustDevice(d)`: like `device` but `""` becomes `ErrNotMapped`. -/
def mustDevice (d : DevId) (s : SysState) : Except Err String :=
  match device d s with
  | Except.error e => Except.error e
  | Except.ok blk => if blk == "" then Except.error Err.notMapped else Except.ok blk

/-- The mapping-list row a successful `rbd nbd map` of the Dev creates
(spec §3: a Mapping is always re-queried from the live mapping list). -/
def newMapping (d : DevId) (dev : String) : MappedNBD :=
  match d with
  | DevId.image pool name => ⟨pool, name, "-", dev⟩
  | DevId.snap pool imageName snapName => ⟨pool, imageName, snapName, dev⟩

/-- Running the `rbd nbd map` command, with the oracle's result applied to
the mapping list on success. -/
def runMapCmd (d : DevId) (s : SysState) : Except Err String × SysState :=
  match s.mapCmdResult with
  | Except.error e => (Except.error e, s)
  | Except.ok dev =>
    (Except.ok dev,
      { s with nbdList := s.nbdList.map (fun maps => maps ++ [newMapping d dev]) })

/-- `devMap` (rbd/dev.go lines 227-235): if the device is already mapped
(or the list query failed) return that result without running the map
command; otherwise run `rbd nbd map`. -/
def devMap (d : DevId) (s : SysState) :
    Except Err String × SysState × List Action :=
  match device d s with
  | Except.error e => (Except.error e, s, [])
  | Except.ok nbd =>
    if nbd != "" then (Except.ok nbd, s, [])
    else
      let r := runMapCmd d s
      (r.1, r.2, [Action.mapCmd d])

/-- `isMountedAt(blk, mountPoint)` via `getMounts` on our own mountinfo. -/
def isMountedAt (blk mountPoint : String) (s : SysState) : Except Err Bool :=
  match getMountInfoForDev s.scan.selfMountinfo blk with
  | Except.error e => Except.error e
  | Except.ok mounts =>
    Except.ok (mounts.any (fun m => m.info.mountPoint == mountPoint))

/-- `unmount(blk, mountPoint)`: no-op when not mounted there; otherwise the
`syscall.Unmount` is recorded and the kernel drops the mounts at that
mountpoint from our namespace (coarse model of the unmount syscall). -/
def unmount (blk mountPoint : String) (s : SysState) :
    Except Err Unit × SysState × List Action :=
  match isMountedAt blk mountPoint s with
  | Except.error e => (Except.error e, s, [])
  | Except.ok false => (Except.ok (), s, [])
  | Except.ok true =>
    (Except.ok (),
      { s with scan := { s.scan with selfMountinfo :=
          s.scan.selfMountinfo.filter (fun m => !(m.mountPoint == mountPoint)) } },
      [Action.unmountSys mountPoint])

/-- `unmap(blk)`: the `rbd nbd unmap` command; on success the mapping
disappears from the mapping list. -/
def unmap (blk : String) (s : SysState) :
    Except Err Unit × SysState × List Action :=
  (Except.ok (),
    { s with nbdList := s.nbdList.map (fun maps =>
        maps.filter (fun m => !(m.device == blk))) },
    [Action.unmapCmd blk])

/-- `devUnmountAndUnmap` (rbd/dev.go lines 266-278): return early when the
device is unmapped (or the list query failed); run the namespace-conflict
scan and abort on its error; only then unmount and unmap. -/
def devUnmountAndUnmap (d : DevId) (mountPoint : String) (s : SysState) :
    Except Err Unit × SysState × List Action :=
  match device d s with
  | Except.error e => (Except.error e, s, [])
  | Except.ok blk =>
    if blk == "" then (Except.ok (), s, [])
    else
      match (isMountedElsewhere s.scan blk mountPoint).1 with
      | Except.error e => (Except.error e, s, [Action.scanNs])
      | Except.ok _ =>
        let u := unmount blk mountPoint s
        match u.1 with
        | Except.error e => (Except.error e, u.2.1, Action.scanNs :: u.2.2)
        | Except.ok _ =>
          let um := unmap blk u.2.1
          (um.1, um.2.1, Action.scanNs :: u.2.2 ++ um.2.2)

/-! ### Mounting and the snapshot read-only flag (rbd/snapshot.go, mount helpers) -/

/-- `syscall.MS_RDONLY`. -/
def MS_RDONLY : Nat := 1

/-- `syscall.MS_NOATIME`, a caller-suppliable flag with no read-only bit. -/
def MS_NOATIME : Nat := 1024

/-- Whether a mount performed with `flags` is a read-only mount. -/
def isReadOnlyMount (flags : Nat) : Bool := (flags &&& MS_RDONLY) != 0

/-- `getFs(blk)`: the filesystem-type probe of the block device, modelled by
the `fsProbe` table of the state. -/
def getFs (blk : String) (s : SysState) : Except Err String :=
  match s.fsProbe.find? (fun p => p.1 == blk) with
  | some p => Except.ok p.2
  | none => Except.error (Err.cmdError "fs probe failed")

/-- The `mount` helper: no-op when already mounted at `mountPoint`, probe the
filesystem when `fs` is empty, then issue the mount syscall with exactly the
given flags.  (Directory creation and the syscall's effect on the mount
table are not modelled; no claim reads the table after mounting.) -/
def mount (blk mountPoint fs : String) (flags : Nat) (data : String) (s : SysState) :
    Except Err Unit × SysState × List Action :=
  match isMountedAt blk mountPoint s with
  | Except.error e => (Except.error e, s, [])
  | Except.ok true => (Except.ok (), s, [])
  | Except.ok false =>
    match (if fs == "" then getFs blk s else Except.ok fs) with
    | Except.error e => (Except.error e, s, [])
    | Except.ok fs2 =>
      (Except.ok (), s, [Action.mountSys blk mountPoint fs2 flags data])

/-- `devMount` (rbd/dev.go lines 249-255): require a mapped device
(`ErrNotMapped` otherwise) and mount it. -/
def devMount (d : DevId) (mountPoint fs : String) (flags : Nat) (data : String)
    (s : SysState) : Except Err Unit × SysState × List Action :=
  match mustDevice d s with
  | Except.error e => (Except.error e, s, [])
  | Except.ok blk => mount blk mountPoint fs flags data s

/-- `Snapshot.Mount` (rbd/snapshot.go lines 58-61): the flags are combined
with `syscall.MS_RDONLY` using `&` (`flags = flags & syscall.MS_RDONLY`)
before mounting. -/
def snapshotMount (d : DevId) (mountPoint fs : String) (flags : Nat) (data : String)
    (s : SysState) : Except Err Unit × SysState × List Action :=
  devMount d mountPoint fs (flags &&& MS_RDONLY) data s

/-- Dynamic dispatch of `d.Mount`: an `Image` mounts with the caller's flags,
a `Snapshot` applies its flag mask first. -/
def devMountOf (d : DevId) (mountPoint fs : String) (flags : Nat) (data : String)
    (s : SysState) : Except Err Unit × SysState × List Action :=
  match d with
  | DevId.image _ _ => devMount d mountPoint fs flags data s
  | DevId.snap _ _ _ => snapshotMount d mountPoint fs flags data s

/-- `devMapAndMount` (rbd/dev.go lines 237-247): try `d.Mount`; exactly on
`ErrNotMapped`, map the device and mount the returned block device with the
caller's original flags. -/
def devMapAndMount (d : DevId) (mountPoint fs : String) (flags : Nat) (data : String)
    (s : SysState) : Except Err Unit × SysState × List Action :=
  let m := devMountOf d mountPoint fs flags data s
  match m.1 with
  | Except.error Err.notMapped =>
    let mf := devMap d s
    match mf.1 with
    | Except.error e => (Except.error e, mf.2.1, mf.2.2)
    | Except.ok blk =>
      let mt := mount blk mountPoint fs flags data mf.2.1
      (mt.1, mt.2.1, mf.2.2 ++ mt.2.2)
  | r => (r, m.2.1, m.2.2)

/-! ### Freeze and consistent snapshots (part_014 fsFreezeBlk, part_009
CreateConsistentSnapshot) -/

/-- The closure returned by `fsFreezeBlk`: either the empty `func() {}` or
`func() { FSUnfreeze(mountPoint) }`.  The Go error paths return a nil
closure, modelled as `none`; a deferred call of a nil closure panics. -/
inductive Unfreezer where
  | noop
  | unfreezeMp (mountPoint : String)
deriving DecidableEq, Repr

/-- `FSFreeze(mountpoint)` via the `fsfreeze` oracle; on success the
mountpoint becomes frozen. -/
def fsFreeze (mountPoint : String) (s : SysState) :
    Except Err Unit × SysState × List Action :=
  match s.freezeResult with
  | Except.error e => (Except.error e, s, [])
  | Except.ok _ =>
    (Except.ok (), { s with frozen := mountPoint :: s.frozen }, [Action.freeze mountPoint])

/-- `FSUnfreeze(mountpoint)`; inside the deferred closure its error is
ignored, so it is modelled as always thawing. -/
def fsUnfreeze (mountPoint : String) (s : SysState) : SysState × List Action :=
  ({ s with frozen := s.frozen.erase mountPoint }, [Action.unfreeze mountPoint])

/-- `getMounts(blk)` on our own mountinfo. -/
def getMounts (blk : String) (s : SysState) : Except Err (List ResolvedMount) :=
  getMountInfoForDev s.scan.selfMountinfo blk

/-- `fsFreezeBlk(blk)` (part_014 lines 338-352): returns the unfreeze
closure and the freeze's error.  When nothing is mounted locally it instead
checks no foreign namespace has the device mounted; when mounted it freezes
the first mountpoint. -/
def fsFreezeBlk (blk : String) (s : SysState) :
    (Option Unfreezer × Except Err Unit) × SysState × List Action :=
  match getMounts blk s with
  | Except.error e => ((none, Except.error e), s, [])
  | Except.ok [] =>
    match (isMountedElsewhere s.scan blk "").1 with
    | Except.error e => ((none, Except.error e), s, [Action.scanNs])
    | Except.ok _ => ((some Unfreezer.noop, Except.ok ()), s, [Action.scanNs])
  | Except.ok (m :: _) =>
    let f := fsFreeze m.info.mountPoint s
    ((some (Unfreezer.unfreezeMp m.info.mountPoint), f.1), f.2.1, f.2.2)

/-- Running the deferred closure; `none` (a nil closure) is a runtime
panic, surfaced as the `Option` of the caller. -/
def runUnfreezer : Option Unfreezer → SysState → Option (SysState × List Action)
  | none, _ => none
  | some Unfreezer.noop, s => some (s, [])
  | some (Unfreezer.unfreezeMp mountPoint), s =>
    let u := fsUnfreeze mountPoint s
    some (u.1, u.2)

/-- `rbd snap create` via its oracle (the `CreateSnapshot` command). -/
def createSnapshotCmd (name : String) (s : SysState) :
    Except Err Unit × SysState × List Action :=
  (s.snapCreateResult, s, [Action.snapCreate name])

/-- `Image.CreateConsistentSnapshot` (part_009 lines 126-142): fail with
`ErrNotMapped` when unmapped and `onlyIfMapped`; when mapped, freeze via
`fsFreezeBlk`, register the deferred unfreeze, and create the snapshot; the
deferred unfreeze runs on every exit after registration.  The outer
`Option` is `none` exactly when the deferred nil closure panics. -/
def createConsistentSnapshot (img : DevId) (name : String) (onlyIfMapped : Bool)
    (s : SysState) : Option (Except Err Unit × SysState × List Action) :=
  match device img s with
  | Except.error e => some (Except.error e, s, [])
  | Except.ok blk =>
    if onlyIfMapped && (blk == "") then some (Except.error Err.notMapped, s, [])
    else if blk != "" then
      let fz := fsFreezeBlk blk s
      match fz.1.2 with
      | Except.error e =>
        match runUnfreezer fz.1.1 fz.2.1 with
        | none => none
        | some (s2, tr2) => some (Except.error e, s2, fz.2.2 ++ tr2)
      | Except.ok _ =>
        let cs := createSnapshotCmd name fz.2.1
        match runUnfreezer fz.1.1 cs.2.1 with
        | none => none
        | some (s2, tr2) => some (cs.1, s2, fz.2.2 ++ cs.2.2 ++ tr2)
    else
      let cs := createSnapshotCmd name s
      some (cs.1, cs.2.1, cs.2.2)

/-! ### The lock manager (part_015 RbdLock, part_010 reapLocks) -/

/-- A cluster lock entry.  The Go lock id is the string
`hostname + "," + expiry.Format(RFC3339Nano)`; splitting on the comma and
parsing the time is modelled by the structured fields, with
`expiry = none` standing for an unparseable timestamp.  `locker` is the
cluster's locker field used by `rbd lock rm`. -/
structure LockEntry where
  host : String
  expiry : Option Int
  locker : String
deriving DecidableEq, Repr

/-- `DrpEndOfTime` (`time.Unix(1<<63-62135596801, 999999999)`), the
expiration used for fixed (non-expiring) locks. -/
def drpEndOfTime : Int := 9223372036854775807

/-- The pruning loop of `RbdLock.refreshLock` (part_015 lines 119-134):
after adding the new entry, every listed entry other than the new one whose
id's hostname equals ours is removed; entries of other hosts are only
logged and skipped. -/
def refreshLockPrune (hostname : String) (newLid : LockEntry)
    (locks : List LockEntry) : List LockEntry :=
  locks.filter (fun e => (e == newLid) || !(e.host == hostname))

/-- The new lock entry added by one refresh cycle: expiration `now +
expiresIn`, or `DrpEndOfTime` when `expiresIn` is zero. -/
def newLockEntry (hostname : String) (now expiresIn : Int) (locker : String) : LockEntry :=
  ⟨hostname, some (if expiresIn == 0 then drpEndOfTime else now + expiresIn), locker⟩

/-- One lock refresh cycle (`RbdLock.refreshLock`, lock-maintenance part):
add the fresh entry, re-list, and prune.  (The user-count bookkeeping that
may instead release an idle lock is upstream of this and not modelled.) -/
def refreshLockStep (hostname : String) (now expiresIn : Int) (locker : String)
    (locks : List LockEntry) : List LockEntry :=
  let newLid := newLockEntry hostname now expiresIn locker
  refreshLockPrune hostname newLid (locks ++ [newLid])

/-- `RbdImage.reapLocks` (part_010 lines 630-663), run when a lock is
acquired or inherited: delete every entry of any host whose parsed
expiration is strictly in the past; unparseable entries are skipped. -/
def reapLocks (now : Int) (locks : List LockEntry) : List LockEntry :=
  locks.filter (fun e =>
    match e.expiry with
    | none => true
    | some t => !(decide (t < now)))

/-- `close(ch)` on a channel: closes an open channel, panics (`none`) on an
already-closed one. -/
def closeChan (isOpen : Bool) : Option Bool :=
  if isOpen then some false else none

/-- The `select { case <-rl.open: default: close(rl.open) }` at the top of
`RbdLock.release` (part_015 lines 140-144): when the channel is already
closed the receive case fires and nothing is closed; otherwise the default
case closes it.  Returns the channel state and whether a close happened. -/
def releaseChanStep (isOpen : Bool) : Option (Bool × Bool) :=
  if isOpen then
    match closeChan isOpen with
    | some st => some (st, true)
    | none => none
  else some (isOpen, false)

/-- The state of one `RbdLock`: whether its cancellation channel is still
open, our hostname, and the cluster's lock entries for the image. -/
structure RbdLockState where
  isOpen : Bool
  hostname : String
  locks : List LockEntry
deriving DecidableEq, Repr

/-- `RbdLock.release` (part_015 lines 139-166): the guarded channel close,
then removal of every entry whose id names our hostname, skipping (and only
logging) entries of other hosts.  `none` would be a panic; the `Bool`
reports whether this call closed the channel. -/
def release (s : RbdLockState) : Option (RbdLockState × Bool) :=
  match releaseChanStep s.isOpen with
  | none => none
  | some (o, didClose) =>
    some (⟨o, s.hostname, s.locks.filter (fun e => !(e.host == s.hostname))⟩, didClose)

/-! ### Snapshot pruning (tools/rbd-snap/prune.go lines 47-84) -/

/-- `strings.TrimPrefix`. -/
def trimPfx (s pfx : String) : String :=
  if s.startsWith pfx then s.drop pfx.length else s

/-- The per-snapshot decision of `prune`'s `pruneF`: take the creation
timestamp from the volume-reported metadata, or, when that value is zero,
parse it (RFC3339) from the snapshot name stripped of `prefix + "_"`
(`parseRFC3339` models `time.Parse`, `none` being a parse error, which makes
the snapshot fail with an error).  Returns `true` when the snapshot is
removed (`UnmountAndUnmap` then `Remove`), `false` when it is skipped as
newer: removal happens unless `pruneBefore.Before(created)`. -/
def pruneDecision (parseRFC3339 : String → Option Int) (pruneBefore : Int)
    (pfx name : String) (metaTs : Int) : Except Err Bool :=
  let createdE : Except Err Int :=
    if metaTs == 0 then
      match parseRFC3339 (trimPfx name (pfx ++ "_")) with
      | none => Except.error (Err.parseError name)
      | some t => Except.ok t
    else Except.ok metaTs
  match createdE with
  | Except.error e => Except.error e
  | Except.ok created => Except.ok (!(decide (pruneBefore < created)))

/-! ### Spec-side comparison definition and concrete example worlds -/

/-- The tolerance condition exactly as the specification words it: the
foreign mount entry's own `shared` id equals the local mount entry's own
`shared` id, or its own `master` id equals the local mount entry's own
`shared` id (spec §4.3; to be compared with `foreignTolerated`, which the
code evaluates on the PARENT mounts and only for nonzero ids). -/
def specForeignTolerated (myMount m : MountInfo) : Bool :=
  (m.shared == myMount.shared) || (m.master == myMount.shared)

/-- A root mount entry that serves as parent of the device mounts. -/
def rootMount : MountInfo := ⟨1, 0, "/", "rootfs", 0, 0⟩

/-- An empty scan world (no mounts, no other processes). -/
def emptyScan : ScanWorld := ⟨"mnt:[1]", [], []⟩

/-- State with no mappings at all. -/
def c10State : SysState :=
  ⟨Except.ok [], emptyScan, Except.ok "/dev/nbd0", Except.ok (), Except.ok (), [], []⟩

/-- World for the conflict example: the device is mapped, not mounted in our
namespace, and mounted at `/mnt/other` inside the namespace of pid 7 with no
propagation relation to us. -/
def c2Scan : ScanWorld :=
  ⟨"mnt:[1]", [],
    [⟨true, "7", some "mnt:[2]",
      some [rootMount, ⟨2, 1, "/mnt/other", "/dev/nbd0", 0, 0⟩]⟩]⟩

def c2State : SysState :=
  ⟨Except.ok [⟨"rbd", "img", "-", "/dev/nbd0"⟩], c2Scan,
    Except.ok "/dev/nbd0", Except.ok (), Except.ok (), [], []⟩

/-- State with the snapshot `rbd/img@s1` mapped to `/dev/nbd1` and nothing
mounted. -/
def c1State : SysState :=
  ⟨Except.ok [⟨"rbd", "img", "s1", "/dev/nbd1"⟩], emptyScan,
    Except.ok "/dev/nbd1", Except.ok (), Except.ok (), [], []⟩

/-- State with the snapshot unmapped and the map command about to return
`/dev/nbd1`. -/
def c1StateUnmapped : SysState :=
  ⟨Except.ok [], emptyScan, Except.ok "/dev/nbd1", Except.ok (), Except.ok (), [], []⟩

/-- Local mount of the device, own `shared` id 5, whose parent is a mount
with `shared` id 7. -/
def c3LocalParent : MountInfo := ⟨1, 0, "/", "rootfs", 7, 0⟩

def c3LocalMount : MountInfo := ⟨2, 1, "/mnt/vol", "/dev/nbd0", 5, 0⟩

/-- Foreign mount of the device with the same own `shared` id 5, but whose
parent mount is in peer group 9, unrelated to ours. -/
def c3ForeignParent : MountInfo := ⟨1, 0, "/", "rootfs", 9, 0⟩

def c3ForeignMount : MountInfo := ⟨2, 1, "/mnt/other", "/dev/nbd0", 5, 0⟩

def c3World : ScanWorld :=
  ⟨"mnt:[1]", [c3LocalParent, c3LocalMount],
    [⟨true, "42", some "mnt:[2]", some [c3ForeignParent, c3ForeignMount]⟩]⟩

/-- World whose only mount of the device anywhere is local at `/mnt/vol`. -/
def c4WorldOk : ScanWorld :=
  ⟨"mnt:[1]", [rootMount, ⟨2, 1, "/mnt/vol", "/dev/nbd0", 0, 0⟩],
    [⟨true, "9", some "mnt:[3]", some [rootMount]⟩]⟩

/-- World with a local mount of the device at a path other than the
requested mountpoint; other processes exist but must not be examined. -/
def c4WorldBad : ScanWorld :=
  ⟨"mnt:[1]", [rootMount, ⟨2, 1, "/mnt/other", "/dev/nbd0", 0, 0⟩],
    [⟨true, "9", some "mnt:[3]",
      some [rootMount, ⟨2, 1, "/mnt/third", "/dev/nbd0", 0, 0⟩]⟩]⟩

/-- State with nothing mapped and the map command about to return
`/dev/nbd2`. -/
def c5State : SysState :=
  ⟨Except.ok [], emptyScan, Except.ok "/dev/nbd2", Except.ok (), Except.ok (), [], []⟩

/-- The state after the first `Map()` on `c5State`. -/
def c5State1 : SysState :=
  ⟨Except.ok [⟨"rbd", "a", "-", "/dev/nbd2"⟩], emptyScan,
    Except.ok "/dev/nbd2", Except.ok (), Except.ok (), [], []⟩

/-- An expired lock entry of another host (expiration 100, long past). -/
def c6Foreign : LockEntry := ⟨"host-b", some 100, "client.4"⟩

/-- An older entry of our own host. -/
def c6OwnOld : LockEntry := ⟨"host-a", some 900, "client.7"⟩

/-- A held lock with one own and one foreign entry. -/
def c7S0 : RbdLockState :=
  ⟨true, "host-a", [⟨"host-a", some 5, "l1"⟩, ⟨"host-b", some 6, "l2"⟩]⟩

/-- A parse function that always fails (the metadata path never consults
it when the metadata timestamp is nonzero). -/
def noParse : String → Option Int := fun _ => none

/-- World for the consistent-snapshot example: the image is mapped to
`/dev/nbd0` and mounted at `/mnt/vol`. -/
def c9Scan : ScanWorld :=
  ⟨"mnt:[1]", [rootMount, ⟨2, 1, "/mnt/vol", "/dev/nbd0", 0, 0⟩], []⟩

/-- The snapshot-create command is about to fail in this state. -/
def c9State : SysState :=
  ⟨Except.ok [⟨"rbd", "img", "-", "/dev/nbd0"⟩], c9Scan, Except.ok "/dev/nbd0",
    Except.ok (), Except.error (Err.cmdError "snap create failed"), [], []⟩

/-! ## Theorems -/

/-- C10: `UnmountAndUnmap(target)` on a device that is not currently mapped
returns nil immediately: no namespace-conflict scan, no unmount and no
unmap are performed, and the state is unchanged. -/
theorem c10_unmountAndUnmap_unmapped_noop (d : DevId) (mountPoint : String)
    (s : SysState) (maps : List MappedNBD)
    (hList : s.nbdList = Except.ok maps)
    (hNone : maps.find? (mappingMatches d) = none) :
    devUnmountAndUnmap d mountPoint s = (Except.ok (), s, []) := by
  simp [devUnmountAndUnmap, device, findDevice, hList, hNone]

/-- Witness for C10: concrete unmapped device, evaluated. -/
theorem c10_witness :
    devUnmountAndUnmap (DevId.image "rbd" "img") "/mnt/x" c10State
      = (Except.ok (), c10State, []) :=
  c10_unmountAndUnmap_unmapped_noop (DevId.image "rbd" "img") "/mnt/x" c10State [] rfl rfl

/-- C2: whenever `UnmountAndUnmap(target)` detects the device mounted
elsewhere (the scan returns `ErrMountedElsewhere`), it returns that error
and performs neither the unmount nor the unmap: the state (hence the
mounted and mapped state) is unchanged and the trace holds only the scan. -/
theorem c2_unmountAndUnmap_aborts_on_conflict (d : DevId) (mountPoint : String)
    (s : SysState) (blk msg : String)
    (hDev : device d s = Except.ok blk) (hBlk : blk ≠ "")
    (hScan : (isMountedElsewhere s.scan blk mountPoint).1
        = Except.error (Err.mountedElsewhere msg)) :
    devUnmountAndUnmap d mountPoint s
      = (Except.error (Err.mountedElsewhere msg), s, [Action.scanNs]) := by
  have hb : (blk == "") = false := beq_eq_false_iff_ne.mpr hBlk
  simp [devUnmountAndUnmap, hDev, hb, hScan]

/-- Witness for C2: a device mapped and mounted only inside another
namespace with no propagation relation; the conflict aborts the operation. -/
theorem c2_witness :
    devUnmountAndUnmap (DevId.image "rbd" "img") "/mnt/vol" c2State
      = (Except.error (Err.mountedElsewhere "/dev/nbd0 is mounted at /mnt/other"),
          c2State, [Action.scanNs]) :=
  c2_unmountAndUnmap_aborts_on_conflict (DevId.image "rbd" "img") "/mnt/vol" c2State
    "/dev/nbd0" "/dev/nbd0 is mounted at /mnt/other" (by decide) (by decide) (by decide)

/-- C1 (code bug): `Snapshot.Mount` computes `flags & MS_RDONLY`, which does
NOT force the mount read-only: with `MS_NOATIME` (no read-only bit) the
issued mount syscall carries flags `0`, a writable mount request; and in the
`MapAndMount` remap path the raw caller flags are passed through unmasked.
The claim (spec: the mount is always forced read-only) fails on this input;
the intended operation is `flags | MS_RDONLY`. -/
theorem c1_snapshot_mount_not_forced_readonly :
    snapshotMount (DevId.snap "rbd" "img" "s1") "/mnt/s" "xfs" MS_NOATIME "" c1State
      = (Except.ok (), c1State, [Action.mountSys "/dev/nbd1" "/mnt/s" "xfs" 0 ""])
    ∧ (devMapAndMount (DevId.snap "rbd" "img" "s1") "/mnt/s" "xfs" MS_NOATIME ""
        c1StateUnmapped).2.2
      = [Action.mapCmd (DevId.snap "rbd" "img" "s1"),
         Action.mountSys "/dev/nbd1" "/mnt/s" "xfs" MS_NOATIME ""]
    ∧ isReadOnlyMount 0 = false ∧ isReadOnlyMount MS_NOATIME = false := by
  refine ⟨by decide, by decide, rfl, rfl⟩

/-- C8 counterexample: a snapshot whose creation timestamp equals the cutoff
exactly is removed by the code (`pruneDecision … = ok true`), although it is
not strictly before the cutoff, so the claim's "exactly those strictly
before T are removed" is false at this input. -/
theorem c8_prune_boundary_counterexample :
    pruneDecision noParse 1000 "daily" "daily_x" 1000 = Except.ok true
    ∧ ¬((1000 : Int) < 1000) := ⟨rfl, by decide⟩

/-- C8 amended: with the snapshot's timestamp `ts` taken from the nonzero
metadata value, or parsed from the name stripped of `prefix + "_"` when the
metadata value is zero, the snapshot is removed exactly when `ts ≤ T` and
retained exactly when `T < ts` (the boundary `ts = T` is removed, not
retained). -/
theorem c8_prune_removes_iff_at_or_before (parse : String → Option Int)
    (pruneBefore : Int) (pfx name : String) (metaTs ts : Int)
    (hTs : (metaTs ≠ 0 ∧ ts = metaTs) ∨
      (metaTs = 0 ∧ parse (trimPfx name (pfx ++ "_")) = some ts)) :
    (pruneDecision parse pruneBefore pfx name metaTs = Except.ok true ↔ ts ≤ pruneBefore)
    ∧ (pruneDecision parse pruneBefore pfx name metaTs = Except.ok false ↔ pruneBefore < ts) := by
  have hE : pruneDecision parse pruneBefore pfx name metaTs
      = Except.ok (!(decide (pruneBefore < ts))) := by
    rcases hTs with ⟨hne, hts⟩ | ⟨hz, hp⟩
    · subst hts
      have hb : (ts == (0 : Int)) = false := beq_eq_false_iff_ne.mpr hne
      simp [pruneDecision, hb]
    · subst hz
      simp [pruneDecision, hp]
  rw [hE]
  constructor
  · simp [not_lt]
  · simp [not_lt]

/-- Witness for C8 amended: metadata timestamp 5, cutoff 10: removed. -/
theorem c8_witness : pruneDecision noParse 10 "daily" "daily_x" 5 = Except.ok true :=
  (c8_prune_removes_iff_at_or_before noParse 10 "daily" "daily_x" 5 5
    (Or.inl ⟨by decide, rfl⟩)).1.mpr (by decide)

/-- C6 counterexample: a lock refresh cycle does not delete an expired entry
of another host: with now = 1000, the foreign entry expired at 100 survives
the cycle (the refresh loop skips every entry of a different hostname). -/
theorem c6_refresh_retains_expired_foreign :
    refreshLockStep "host-a" 1000 60 "client.7" [c6Foreign, c6OwnOld]
      = [c6Foreign, newLockEntry "host-a" 1000 60 "client.7"]
    ∧ (100 : Int) < 1000 := ⟨by decide, by decide⟩

/-- C6 amended: the refresh cycle renews the local entry and removes only
the local host's other entries — every entry of another host survives the
cycle untouched, expired or not; cooperative deletion of expired entries of
any host is done by `reapLocks`, which runs when a lock is acquired or
inherited, and removes exactly the parseable entries whose expiration is
strictly in the past. -/
theorem c6_refresh_local_prune_and_acquire_reap :
    (∀ hostname now expiresIn locker locks, ∀ e ∈ locks, e.host ≠ hostname →
      e ∈ refreshLockStep hostname now expiresIn locker locks)
    ∧ (∀ hostname now expiresIn locker locks,
        ∀ e ∈ refreshLockStep hostname now expiresIn locker locks,
        e.host = hostname → e = newLockEntry hostname now expiresIn locker)
    ∧ (∀ now locks, ∀ e ∈ locks, (e ∈ reapLocks now locks ↔
        e.expiry = none ∨ ∃ t, e.expiry = some t ∧ now ≤ t)) := by
  refine ⟨?_, ?_, ?_⟩
  · intro hostname now expiresIn locker locks e he hne
    have hb : (e.host == hostname) = false := beq_eq_false_iff_ne.mpr hne
    refine List.mem_filter.mpr ⟨List.mem_append_left _ he, ?_⟩
    simp [hb]
  · intro hostname now expiresIn locker locks e he hh
    have := (List.mem_filter.mp he).2
    rcases Bool.or_eq_true_iff.mp this with h1 | h2
    · exact eq_of_beq h1
    · exfalso
      rw [hh] at h2
      simp at h2
  · intro now locks e he
    constructor
    · intro hmem
      have := (List.mem_filter.mp hmem).2
      cases hx : e.expiry with
      | none => exact Or.inl rfl
      | some t =>
        rw [hx] at this
        simp at this
        exact Or.inr ⟨t, rfl, this⟩
    · intro h
      refine List.mem_filter.mpr ⟨he, ?_⟩
      rcases h with h | ⟨t, ht, hlt⟩
      · simp [h]
      · simp [ht]
        exact hlt

/-- Witness for C6 amended: the expired foreign entry survives refresh but
is removed by `reapLocks`. -/
theorem c6_witness :
    c6Foreign ∈ refreshLockStep "host-a" 1000 60 "client.7" [c6Foreign, c6OwnOld]
    ∧ c6Foreign ∉ reapLocks 1000 [c6Foreign, c6OwnOld] := by
  constructor
  · exact c6_refresh_local_prune_and_acquire_reap.1 "host-a" 1000 60 "client.7"
      [c6Foreign, c6OwnOld] c6Foreign (by decide) (by decide)
  · intro hmem
    have := (c6_refresh_local_prune_and_acquire_reap.2.2 1000
      [c6Foreign, c6OwnOld] c6Foreign (by decide)).mp hmem
    rcases this with h | ⟨t, ht, hlt⟩
    · exact absurd h (by decide)
    · have ht100 : t = 100 := by
        have h2 : some t = some (100 : Int) := by rw [← ht]; rfl
        exact Option.some.inj h2
      subst ht100
      exact absurd hlt (by decide)

theorem list_filter_self_idem {α : Type} (p : α → Bool) (l : List α) :
    (l.filter p).filter p = l.filter p := by
  simp [List.filter_filter]

/-- C7: lock release is idempotent and safe to invoke repeatedly: it never
panics, the cancellation channel is closed only when it was still open
(hence at most once — a second release performs no close), and each release
removes exactly the entries attributed to the local hostname, keeping every
foreign-host entry. -/
theorem c7_release_idempotent_local_only (s : RbdLockState) :
    ∃ s1 d1, release s = some (s1, d1)
      ∧ s1.isOpen = false
      ∧ (d1 = true ↔ s.isOpen = true)
      ∧ (∀ e ∈ s.locks, e.host ≠ s.hostname → e ∈ s1.locks)
      ∧ (∀ e ∈ s1.locks, e ∈ s.locks ∧ e.host ≠ s.hostname)
      ∧ (∃ s2, release s1 = some (s2, false) ∧ s2.locks = s1.locks) := by
  have hMem1 : ∀ e ∈ s.locks, e.host ≠ s.hostname →
      e ∈ s.locks.filter (fun e => !(e.host == s.hostname)) := by
    intro e he hne
    exact List.mem_filter.mpr ⟨he, by simp [beq_eq_false_iff_ne.mpr hne]⟩
  have hMem2 : ∀ e ∈ s.locks.filter (fun e => !(e.host == s.hostname)),
      e ∈ s.locks ∧ e.host ≠ s.hostname := by
    intro e he
    obtain ⟨h1, h2⟩ := List.mem_filter.mp he
    refine ⟨h1, ?_⟩
    simpa using h2
  cases hO : s.isOpen with
  | true =>
    refine ⟨⟨false, s.hostname, s.locks.filter (fun e => !(e.host == s.hostname))⟩, true,
      ?_, rfl, by simp [hO], hMem1, hMem2, ?_⟩
    · simp [release, releaseChanStep, closeChan, hO]
    · refine ⟨⟨false, s.hostname,
        (s.locks.filter (fun e => !(e.host == s.hostname))).filter
          (fun e => !(e.host == s.hostname))⟩, ?_, ?_⟩
      · simp [release, releaseChanStep, closeChan]
      · exact list_filter_self_idem _ _
  | false =>
    refine ⟨⟨false, s.hostname, s.locks.filter (fun e => !(e.host == s.hostname))⟩, false,
      ?_, rfl, by simp [hO], hMem1, hMem2, ?_⟩
    · simp [release, releaseChanStep, closeChan, hO]
    · refine ⟨⟨false, s.hostname,
        (s.locks.filter (fun e => !(e.host == s.hostname))).filter
          (fun e => !(e.host == s.hostname))⟩, ?_, ?_⟩
      · simp [release, releaseChanStep, closeChan]
      · exact list_filter_self_idem _ _

/-- Witness for C7: a concrete held lock released twice — the first release
closes the channel and removes the local entry, the second performs no
close and no panic. -/
theorem c7_witness :
    (∃ s1 d1, release c7S0 = some (s1, d1)
      ∧ s1.isOpen = false
      ∧ (d1 = true ↔ c7S0.isOpen = true)
      ∧ (∀ e ∈ c7S0.locks, e.host ≠ c7S0.hostname → e ∈ s1.locks)
      ∧ (∀ e ∈ s1.locks, e ∈ c7S0.locks ∧ e.host ≠ c7S0.hostname)
      ∧ (∃ s2, release s1 = some (s2, false) ∧ s2.locks = s1.locks))
    ∧ release c7S0
      = some (⟨false, "host-a", [⟨"host-b", some 6, "l2"⟩]⟩, true) :=
  ⟨c7_release_idempotent_local_only c7S0, by decide⟩

/-- C9: when the image is mapped and its filesystem is mounted and the
freeze succeeds, `CreateConsistentSnapshot` freezes, attempts the snapshot
and unfreezes unconditionally via the deferred closure: whatever the
snapshot command's result (which is returned verbatim), the trace is
freeze–create–unfreeze and the final state equals the initial one, so a
failed snapshot never leaves the filesystem frozen. -/
theorem c9_consistent_snapshot_unfreezes (img : DevId) (name : String)
    (onlyIfMapped : Bool) (s : SysState) (blk : String) (m : ResolvedMount)
    (rest : List ResolvedMount)
    (hDev : device img s = Except.ok blk) (hBlk : blk ≠ "")
    (hMounts : getMounts blk s = Except.ok (m :: rest))
    (hFreeze : s.freezeResult = Except.ok ()) :
    createConsistentSnapshot img name onlyIfMapped s
      = some (s.snapCreateResult, s,
          [Action.freeze m.info.mountPoint, Action.snapCreate name,
           Action.unfreeze m.info.mountPoint]) := by
  have hb : (blk == "") = false := beq_eq_false_iff_ne.mpr hBlk
  simp [createConsistentSnapshot, hDev, hb, fsFreezeBlk, hMounts, fsFreeze, hFreeze,
        createSnapshotCmd, runUnfreezer, fsUnfreeze]
  rw [if_neg hBlk, ← hFreeze]

/-- Witness for C9: the snapshot command fails, yet the filesystem is
unfrozen afterwards and the state is unchanged. -/
theorem c9_witness :
    createConsistentSnapshot (DevId.image "rbd" "img") "snapname" false c9State
      = some (Except.error (Err.cmdError "snap create failed"), c9State,
          [Action.freeze "/mnt/vol", Action.snapCreate "snapname",
           Action.unfreeze "/mnt/vol"]) :=
  c9_consistent_snapshot_unfreezes (DevId.image "rbd" "img") "snapname" false c9State
    "/dev/nbd0" ⟨⟨2, 1, "/mnt/vol", "/dev/nbd0", 0, 0⟩, rootMount⟩ []
    (by decide) (by decide) (by decide) rfl

theorem mappingMatches_newMapping (d : DevId) (dev : String) :
    mappingMatches d (newMapping d dev) = true := by
  cases d <;> simp [mappingMatches, newMapping]

theorem newMapping_device (d : DevId) (dev : String) :
    (newMapping d dev).device = dev := by
  cases d <;> rfl

theorem runMapCmd_fst (d : DevId) (s : SysState) :
    (runMapCmd d s).1 = s.mapCmdResult := by
  rcases hM : s.mapCmdResult with e | dev <;> simp [runMapCmd, hM]

/-- C5: `Map()` is idempotent.  First part: when a mapping already exists,
`Map()` returns its device path with no state change and no map command
issued.  Second part: two successful `Map()` calls with no intervening
`Unmap` (the second runs on the state the first produced) return the
identical device path. -/
theorem c5_map_idempotent :
    (∀ (d : DevId) (s : SysState) (blk : String),
      device d s = Except.ok blk → blk ≠ "" →
      devMap d s = (Except.ok blk, s, []))
    ∧ (∀ (d : DevId) (s s1 s2 : SysState) (p1 p2 : String)
        (tr1 tr2 : List Action),
        devMap d s = (Except.ok p1, s1, tr1) →
        devMap d s1 = (Except.ok p2, s2, tr2) → p1 = p2) := by
  constructor
  · intro d s blk hDev hne
    have hb : (blk != "") = true := bne_iff_ne.mpr hne
    simp [devMap, hDev, hb]
  · intro d s s1 s2 p1 p2 tr1 tr2 h1 h2
    rcases hL : s.nbdList with e | maps
    · have hdm : devMap d s = (Except.error e, s, []) := by
        simp [devMap, device, hL]
      rw [hdm] at h1
      simp at h1
    · by_cases hE : findDevice maps d = ""
      · rcases hM : s.mapCmdResult with e | dev
        · have hdm : devMap d s = (Except.error e, s, [Action.mapCmd d]) := by
            simp [devMap, device, hL, hE, runMapCmd, hM]
          rw [hdm] at h1
          simp at h1
        · have hdm : devMap d s
              = (Except.ok dev,
                  { s with nbdList := Except.ok (maps ++ [newMapping d dev]) },
                  [Action.mapCmd d]) := by
            simp [devMap, device, hL, hE, runMapCmd, hM, Except.map]
          rw [hdm] at h1
          simp only [Prod.mk.injEq, Except.ok.injEq] at h1
          obtain ⟨hp1, hs1, -⟩ := h1
          subst hs1
          have key : (devMap d
              ({ s with nbdList := Except.ok (maps ++ [newMapping d dev]) })).1
              = Except.ok dev := by
            rcases hF : maps.find? (mappingMatches d) with _ | mm
            · have hfa : findDevice (maps ++ [newMapping d dev]) d = dev := by
                simp [findDevice, List.find?_append, hF, mappingMatches_newMapping,
                  newMapping_device]
              by_cases hdev : dev = ""
              · subst hdev
                simp [devMap, device, hfa, runMapCmd, hM]
              · have hb : (dev != "") = true := bne_iff_ne.mpr hdev
                simp [devMap, device, hfa, hb]
            · have hmm : mm.device = "" := by
                have hfd : findDevice maps d = mm.device := by
                  simp [findDevice, hF]
                rw [hfd] at hE
                exact hE
              have hfa : findDevice (maps ++ [newMapping d dev]) d = "" := by
                simp [findDevice, List.find?_append, hF, hmm]
              simp [devMap, device, hfa, runMapCmd, hM]
          have h2' := congrArg Prod.fst h2
          rw [key] at h2'
          rw [← hp1]
          exact Except.ok.inj h2'
      · have hb : (findDevice maps d != "") = true := bne_iff_ne.mpr hE
        have hdm : devMap d s = (Except.ok (findDevice maps d), s, []) := by
          simp [devMap, device, hL, hb]
        rw [hdm] at h1
        simp only [Prod.mk.injEq, Except.ok.injEq] at h1
        obtain ⟨hp1, hs1, -⟩ := h1
        subst hs1
        rw [hdm] at h2
        simp only [Prod.mk.injEq, Except.ok.injEq] at h2
        obtain ⟨hp2, -, -⟩ := h2
        rw [← hp1, ← hp2]

/-- Witness for C5: the image unmapped in `c5State` is mapped by the first
call to `/dev/nbd2`; the second call on the resulting state `c5State1`
returns the identical path with no further map command. -/
theorem c5_witness :
    devMap (DevId.image "rbd" "a") c5State1
      = (Except.ok "/dev/nbd2", c5State1, [])
    ∧ "/dev/nbd2" = "/dev/nbd2" :=
  ⟨c5_map_idempotent.1 (DevId.image "rbd" "a") c5State1 "/dev/nbd2"
      (by decide) (by decide),
   c5_map_idempotent.2 (DevId.image "rbd" "a") c5State c5State1 c5State1
      "/dev/nbd2" "/dev/nbd2" [Action.mapCmd (DevId.image "rbd" "a")] []
      (by decide) (by decide)⟩

theorem getMountInfoForDev_nil (entries : List MountInfo) (dev : String)
    (h : entries.filter (fun e => e.source == dev) = []) :
    getMountInfoForDev entries dev = Except.ok [] := by
  unfold getMountInfoForDev
  rw [h]
  rfl

/-- The scan succeeds exactly when every foreign device mount it examines is
tolerated, and any failure is an `ErrMountedElsewhere`. -/
theorem scanProcs_char (dev : String) (myM : Option ResolvedMount) :
    ∀ (procs : List ProcDir) (seen : List String),
      ((scanProcs dev myM seen procs).1 = Except.ok () ↔
        ∀ m ∈ scannedForeignMounts dev seen procs, foreignTolerated myM m = true)
      ∧ ((scanProcs dev myM seen procs).1 = Except.ok ()
        ∨ ∃ msg, (scanProcs dev myM seen procs).1
            = Except.error (Err.mountedElsewhere msg)) := by
  intro procs
  induction procs with
  | nil =>
    intro seen
    exact ⟨by simp [scanProcs, scannedForeignMounts], Or.inl rfl⟩
  | cons p rest ih =>
    intro seen
    by_cases hSkip : (!p.isDir || !(isNumericName p.dirName)) = true
    · simpa [scanProcs, scannedForeignMounts, hSkip] using ih seen
    · have hSkip' : (!p.isDir || !(isNumericName p.dirName)) = false := by
        simpa using hSkip
      rcases hns : p.mntNs with _ | ns
      · simpa [scanProcs, scannedForeignMounts, hSkip', hns] using ih seen
      · by_cases hSeen : ns ∈ seen
        · simpa [scanProcs, scannedForeignMounts, hSkip', hns, hSeen] using ih seen
        · rcases hmi : p.mountinfo with _ | entries
          · simpa [scanProcs, scannedForeignMounts, hSkip', hns, hSeen, hmi]
              using ih seen
          · rcases hGet : getMountInfoForDev entries dev with e | pidMounts
            · simpa [scanProcs, scannedForeignMounts, hSkip', hns, hSeen, hmi, hGet]
                using ih seen
            · rcases hFind : pidMounts.find? (fun m => !(foreignTolerated myM m))
                with _ | m0
              · have hAll : ∀ m ∈ pidMounts, foreignTolerated myM m = true := by
                  intro m hm
                  have hx := List.find?_eq_none.mp hFind m hm
                  simpa using hx
                have hred : (scanProcs dev myM seen (p :: rest)).1
                    = (scanProcs dev myM (ns :: seen) rest).1 := by
                  simp [scanProcs, hSkip', hns, hSeen, hmi, hGet, hFind]
                have hscn : scannedForeignMounts dev seen (p :: rest)
                    = pidMounts ++ scannedForeignMounts dev (ns :: seen) rest := by
                  simp [scannedForeignMounts, hSkip', hns, hSeen, hmi, hGet, hFind]
                rw [hred, hscn]
                refine ⟨?_, (ih (ns :: seen)).2⟩
                rw [(ih (ns :: seen)).1]
                constructor
                · intro hs m hm
                  rcases List.mem_append.mp hm with h | h
                  · exact hAll m h
                  · exact hs m h
                · intro hall m hm
                  exact hall m (List.mem_append_right _ hm)
              · have hred : (scanProcs dev myM seen (p :: rest)).1
                    = Except.error (Err.mountedElsewhere
                        (dev ++ " is mounted at " ++ m0.info.mountPoint)) := by
                  simp [scanProcs, hSkip', hns, hSeen, hmi, hGet, hFind]
                have hscn : scannedForeignMounts dev seen (p :: rest)
                    = pidMounts ++ scannedForeignMounts dev (ns :: seen) rest := by
                  simp [scannedForeignMounts, hSkip', hns, hSeen, hmi, hGet, hFind]
                rw [hred, hscn]
                constructor
                · constructor
                  · intro h
                    simp at h
                  · intro hall
                    exfalso
                    have hm0 : m0 ∈ pidMounts := List.mem_of_find?_eq_some hFind
                    have hfalse := List.find?_some hFind
                    have htol := hall m0 (List.mem_append_left _ hm0)
                    rw [htol] at hfalse
                    simp at hfalse
                · exact Or.inr ⟨dev ++ " is mounted at " ++ m0.info.mountPoint, rfl⟩

/-- When no other process has the device in its mount table, the scan
examines no foreign device mount. -/
theorem scannedForeignMounts_nil (dev : String) :
    ∀ (procs : List ProcDir),
      (∀ p ∈ procs, ∀ entries, p.mountinfo = some entries →
        entries.filter (fun e => e.source == dev) = []) →
      ∀ seen, scannedForeignMounts dev seen procs = [] := by
  intro procs
  induction procs with
  | nil => intro _ seen; rfl
  | cons p rest ih =>
    intro h seen
    have hp := h p (List.mem_cons_self p rest)
    have hrest := fun q hq => h q (List.mem_cons_of_mem p hq)
    by_cases hSkip : (!p.isDir || !(isNumericName p.dirName)) = true
    · simpa [scannedForeignMounts, hSkip] using ih hrest seen
    · have hSkip' : (!p.isDir || !(isNumericName p.dirName)) = false := by
        simpa using hSkip
      rcases hns : p.mntNs with _ | ns
      · simpa [scannedForeignMounts, hSkip', hns] using ih hrest seen
      · by_cases hSeen : ns ∈ seen
        · simpa [scannedForeignMounts, hSkip', hns, hSeen] using ih hrest seen
        · rcases hmi : p.mountinfo with _ | entries
          · simpa [scannedForeignMounts, hSkip', hns, hSeen, hmi] using ih hrest seen
          · have hGet : getMountInfoForDev entries dev = Except.ok [] :=
              getMountInfoForDev_nil entries dev (hp entries hmi)
            simpa [scannedForeignMounts, hSkip', hns, hSeen, hmi, hGet]
              using ih hrest (ns :: seen)

/-- C4: the local-namespace check of `isMountedElsewhere`.  Part 1: when the
only mount of the device anywhere is the local one at `exceptMountpoint`
(and no other process has the device in its mount table), the scan returns
no error.  Part 2: when a local entry of the device exists at a path other
than `exceptMountpoint`, the scan returns `ErrMountedElsewhere` with an
empty foreign trace — no other process's namespace is enumerated. -/
theorem c4_local_check :
    (∀ (w : ScanWorld) (dev mountpoint : String) (m : ResolvedMount),
      getMountInfoForDev w.selfMountinfo dev = Except.ok [m] →
      m.info.mountPoint = mountpoint →
      (∀ p ∈ w.procs, ∀ entries, p.mountinfo = some entries →
        entries.filter (fun e => e.source == dev) = []) →
      (isMountedElsewhere w dev mountpoint).1 = Except.ok ())
    ∧ (∀ (w : ScanWorld) (dev mountpoint : String) (ms : List ResolvedMount)
        (m : ResolvedMount),
      getMountInfoForDev w.selfMountinfo dev = Except.ok ms →
      m ∈ ms → m.info.mountPoint ≠ mountpoint →
      ∃ msg, isMountedElsewhere w dev mountpoint
        = (Except.error (Err.mountedElsewhere msg), [])) := by
  constructor
  · intro w dev mp m hMs hMp hNo
    have hFind : [m].find? (fun x => !(x.info.mountPoint == mp)) = none := by
      simp [List.find?, hMp]
    have hnil := scannedForeignMounts_nil dev w.procs hNo [w.selfNs]
    have hRed : (isMountedElsewhere w dev mp).1
        = (scanProcs dev (some m) [w.selfNs] w.procs).1 := by
      simp [isMountedElsewhere, hMs, hFind]
    rw [hRed]
    refine (scanProcs_char dev (some m) w.procs [w.selfNs]).1.mpr ?_
    rw [hnil]
    intro x hx
    exact absurd hx (List.not_mem_nil x)
  · intro w dev mp ms m hMs hm hNe
    have hs : (ms.find? (fun x => !(x.info.mountPoint == mp))).isSome := by
      rw [List.find?_isSome]
      exact ⟨m, hm, by simp [hNe]⟩
    rcases hF : ms.find? (fun x => !(x.info.mountPoint == mp)) with _ | m0
    · rw [hF] at hs
      simp at hs
    · exact ⟨dev ++ " is mounted at " ++ m0.info.mountPoint,
        by simp [isMountedElsewhere, hMs, hF]⟩

/-- Witness for C4: a clean world passes; a world with a local mount at a
different path fails with an empty foreign trace. -/
theorem c4_witness :
    (isMountedElsewhere c4WorldOk "/dev/nbd0" "/mnt/vol").1 = Except.ok ()
    ∧ ∃ msg, isMountedElsewhere c4WorldBad "/dev/nbd0" "/mnt/vol"
        = (Except.error (Err.mountedElsewhere msg), []) := by
  constructor
  · refine c4_local_check.1 c4WorldOk "/dev/nbd0" "/mnt/vol"
      ⟨⟨2, 1, "/mnt/vol", "/dev/nbd0", 0, 0⟩, rootMount⟩ (by decide) rfl ?_
    intro p hp entries he
    have h1 : p = ⟨true, "9", some "mnt:[3]", some [rootMount]⟩ := by
      simpa [c4WorldOk] using hp
    subst h1
    have h2 : entries = [rootMount] := by simpa using he.symm
    subst h2
    decide
  · exact c4_local_check.2 c4WorldBad "/dev/nbd0" "/mnt/vol"
      [⟨⟨2, 1, "/mnt/other", "/dev/nbd0", 0, 0⟩, rootMount⟩]
      ⟨⟨2, 1, "/mnt/other", "/dev/nbd0", 0, 0⟩, rootMount⟩
      (by decide) (by decide) (by decide)

/-- C3 counterexample: a foreign mount whose OWN `shared` id equals the
local mount's own `shared` id (the claim's condition — `specForeignTolerated`
is true), yet the code returns `ErrMountedElsewhere`, because the code
compares the PARENT mounts' propagation ids (9 vs 7 here). -/
theorem c3_spec_tolerance_differs_from_code :
    specForeignTolerated c3LocalMount c3ForeignMount = true
    ∧ (isMountedElsewhere c3World "/dev/nbd0" "/mnt/vol").1
        = Except.error (Err.mountedElsewhere "/dev/nbd0 is mounted at /mnt/other") :=
  ⟨by decide, by decide⟩

theorem foreignTolerated_iff (myM : Option ResolvedMount) (m : ResolvedMount) :
    foreignTolerated myM m = true ↔
      ∃ my, myM = some my ∧
        ((m.parent.shared ≠ 0 ∧ m.parent.shared = my.parent.shared) ∨
         (m.parent.master ≠ 0 ∧ m.parent.master = my.parent.shared)) := by
  cases myM with
  | none => simp [foreignTolerated]
  | some my => simp [foreignTolerated]

/-- C3 amended: with a clean local namespace, a foreign mount of the device
is tolerated exactly when a local mount exists and the foreign mount's
PARENT carries a nonzero `shared` id equal to the local mount's parent's
`shared` id, or a nonzero `master` id equal to the local mount's parent's
`shared` id; the scan succeeds iff every examined foreign mount satisfies
this, and otherwise it fails with `ErrMountedElsewhere`. -/
theorem c3_foreign_match_tolerance (w : ScanWorld) (dev mountpoint : String)
    (ms : List ResolvedMount)
    (hLocal : getMountInfoForDev w.selfMountinfo dev = Except.ok ms)
    (hClean : ∀ m ∈ ms, m.info.mountPoint = mountpoint) :
    ((isMountedElsewhere w dev mountpoint).1 = Except.ok () ↔
      ∀ m ∈ scannedForeignMounts dev [w.selfNs] w.procs,
        ∃ my, ms.head? = some my ∧
          ((m.parent.shared ≠ 0 ∧ m.parent.shared = my.parent.shared) ∨
           (m.parent.master ≠ 0 ∧ m.parent.master = my.parent.shared)))
    ∧ ((¬ ∀ m ∈ scannedForeignMounts dev [w.selfNs] w.procs,
          ∃ my, ms.head? = some my ∧
            ((m.parent.shared ≠ 0 ∧ m.parent.shared = my.parent.shared) ∨
             (m.parent.master ≠ 0 ∧ m.parent.master = my.parent.shared))) →
        ∃ msg, (isMountedElsewhere w dev mountpoint).1
          = Except.error (Err.mountedElsewhere msg)) := by
  have hFind : ms.find? (fun x => !(x.info.mountPoint == mountpoint)) = none := by
    rw [List.find?_eq_none]
    intro x hx
    simp [hClean x hx]
  have hRed : (isMountedElsewhere w dev mountpoint).1
      = (scanProcs dev ms.head? [w.selfNs] w.procs).1 := by
    simp [isMountedElsewhere, hLocal, hFind]
  have hchar := scanProcs_char dev ms.head? w.procs [w.selfNs]
  constructor
  · rw [hRed, hchar.1]
    exact forall₂_congr fun m _ => foreignTolerated_iff ms.head? m
  · intro hnot
    rcases hchar.2 with hok | ⟨msg, herr⟩
    · exfalso
      apply hnot
      intro m hm
      exact (foreignTolerated_iff ms.head? m).mp (hchar.1.mp hok m hm)
    · exact ⟨msg, by rw [hRed]; exact herr⟩

/-- Witness for C3 amended: in the counterexample world the parent peer
groups differ, so the amended tolerance fails and the scan reports
`ErrMountedElsewhere`. -/
theorem c3_amended_witness :
    ∃ msg, (isMountedElsewhere c3World "/dev/nbd0" "/mnt/vol").1
      = Except.error (Err.mountedElsewhere msg) := by
  refine (c3_foreign_match_tolerance c3World "/dev/nbd0" "/mnt/vol"
    [⟨c3LocalMount, c3LocalParent⟩] (by decide) (by decide)).2 ?_
  intro hall
  obtain ⟨my, hmy, hdisj⟩ := hall ⟨c3ForeignMount, c3ForeignParent⟩ (by decide)
  have hmy' : my = ⟨c3LocalMount, c3LocalParent⟩ := by simpa using hmy.symm
  subst hmy'
  rcases hdisj with ⟨-, h2⟩ | ⟨h1, -⟩
  · exact absurd h2 (by decide)
  · exact h1 rfl

end RbdPlugin
